import Mathlib

/-!
Shallow embedding of the authenticated-retrieval pipeline of
`src/zspotify/respot.py` (classes `RespotAuth`, `RespotRequest`,
`RespotTrackHandler`, `RespotUtils`), together with theorems settling the
spec claims about it.

External effects are made explicit:
* the HTTP layer is an oracle list of per-attempt outcomes
  (a response with a status code, or a connection error);
* the audio stream is a script of per-read byte availabilities;
* filesystem and encoder outcomes are boolean/`Except` parameters.
Machine integers do not overflow in the modelled code paths, so counters and
sizes are `Nat`/`Int`.
-/

namespace Respot

/-! ## Tokens and the authorized request wrapper (`RespotRequest.authorized_get_request`) -/

/-- Bearer tokens are identified by the order in which they were minted:
the model mints fresh tokens `mint`, `mint + 1`, ... -/
abbrev Token := Nat

/-- Outcome of one `requests.get` call: either a response with an HTTP status
code, or `requests.exceptions.ConnectionError`. -/
inductive HttpResult where
  | resp (status : Nat)
  | connFail
  deriving DecidableEq, Repr

/-- The token state shared by `RespotAuth` and `RespotRequest`
(`self.token`, `self.token_your_libary`), plus the mint counter used to model
fresh token generation by `session.tokens().get(...)`. -/
structure ReqState where
  token : Token
  tokenLib : Token
  mint : Nat
  deriving DecidableEq, Repr

/-- Models `RespotAuth.refresh_token`: rebuilds the session from the stored
credentials and re-derives both tokens; returns the pair and stores it. -/
def refresh_token (st : ReqState) : (Token × Token) × ReqState :=
  ((st.mint, st.mint + 1), ⟨st.mint, st.mint + 1, st.mint + 2⟩)

/-- Result of `authorized_get_request`: a returned response (with the token
state at return time), the `RuntimeError("Connection Error: Too many retries")`,
or exhaustion of the modelled oracle (the scenario ended). -/
inductive ReqOutcome where
  | success (status : Nat) (st : ReqState)
  | tooManyRetries
  | oracleExhausted
  deriving DecidableEq, Repr

/-- Models `RespotRequest.authorized_get_request`. The first component of the result
is the trace of bearer tokens attached to each issued request, in order.
The `retry_count > 3` guard runs before any request is issued, so it appears
in every branch of the oracle match; the oracle is consulted only when
`requests.get` actually runs. On a 401 the source refreshes the tokens,
stores them in `self.token` / `self.token_your_libary`, and recurses passing
the *local* `token_bearer` variable (which still holds the token that was just
rejected). On `ConnectionError` it recurses with the same token and state. -/
def authorized_get_request :
    List HttpResult → Option Token → Nat → ReqState → List Token × ReqOutcome
  | [], _, retryCount, _ =>
    if retryCount > 3 then ([], .tooManyRetries) else ([], .oracleExhausted)
  | .connFail :: rest, tokenBearer, retryCount, st =>
    if retryCount > 3 then ([], .tooManyRetries)
    else
      let tb := tokenBearer.getD st.token
      let r := authorized_get_request rest (some tb) (retryCount + 1) st
      (tb :: r.1, r.2)
  | .resp status :: rest, tokenBearer, retryCount, st =>
    if retryCount > 3 then ([], .tooManyRetries)
    else
      let tb := tokenBearer.getD st.token
      if status = 401 then
        let r0 := refresh_token st
        let r := authorized_get_request rest (some tb) (retryCount + 1) r0.2
        (tb :: r.1, r.2)
      else ([tb], .success status st)

/-- An outcome that `authorized_get_request` recovers from: an HTTP 401
response or a connection-level failure. -/
def isFailing : HttpResult → Bool
  | .resp status => status == 401
  | .connFail => true

/-! ## The chunked download loop (`RespotTrackHandler.download_audio`) -/

/-- Source constant `RespotTrackHandler.CHUNK_SIZE`. -/
def CHUNK_SIZE : Nat := 50000

/-- Source constant `RespotTrackHandler.RETRY_DOWNLOAD`. -/
def RETRY_DOWNLOAD : Nat := 30

/-- State of the download loop: the `downloaded` byte counter, the current
`chunk_size`, the empty-read counter `failCount`, and the trace of reads
performed so far as `(requested, returned)` byte counts (the returned counts
are the lengths of the chunks appended to `segments`). -/
structure DLState where
  downloaded : Nat
  chunkSize : Nat
  failCount : Nat
  reads : List (Nat × Nat)
  deriving DecidableEq, Repr

/-- One iteration of the loop body: `data = stream.read(chunk_size)` returns
`min avail chunk_size` bytes, where `avail` is what the source has ready for
this read; then `downloaded` is advanced, the chunk is appended, `chunk_size`
is shrunk when the remainder is smaller, and a zero-byte read bumps
`failCount`. `total - downloaded` is `Nat` truncation; it can differ from the
source's signed value only when `downloaded > total`, after which the loop
condition fails before any further read, so no reachable read observes the
difference. -/
def stepRead (total avail : Nat) (st : DLState) : DLState :=
  let got := min avail st.chunkSize
  let downloaded := st.downloaded + got
  let chunkSize :=
    if total - downloaded < st.chunkSize then total - downloaded else st.chunkSize
  let failCount := if got = 0 then st.failCount + 1 else st.failCount
  { downloaded := downloaded, chunkSize := chunkSize, failCount := failCount,
    reads := st.reads ++ [(st.chunkSize, got)] }

/-- Models the loop `while downloaded <= total_size: ...` of `download_audio`. The stream is
a script of per-read byte availabilities, consumed one entry per read; an
exhausted script reads as a drained source (0 bytes). `fuel` bounds the
modelled iterations; `none` means the scenario needed more fuel, and every
theorem below supplies enough. The loop breaks when `failCount` exceeds
`RETRY_DOWNLOAD` after the increment. -/
def downloadLoop : Nat → List Nat → Nat → DLState → Option DLState
  | 0, _, _, _ => none
  | fuel + 1, script, total, st =>
    if st.downloaded ≤ total then
      let st' := stepRead total (script.headD 0) st
      if RETRY_DOWNLOAD < st'.failCount then some st'
      else downloadLoop fuel script.tail total st'
    else some st

/-- Observable outcome of `RespotTrackHandler.download_audio`: the final loop
state, whether the terminal `set_progress_bar(False)` signal was emitted, and
the returned boolean. -/
structure DownloadRun where
  final : DLState
  terminalSignal : Bool
  result : Bool
  deriving DecidableEq, Repr

/-- Models `RespotTrackHandler.download_audio` after the stream has been resolved:
run the loop from `downloaded = 0` with `chunk_size = CHUNK_SIZE`, emit the
terminal progress signal, then resolve the output directory (`make_dirs`
creates it with parents; otherwise a missing directory raises
`FileNotFoundError`) and hand the buffer to the external encoder
(`_convert_audio_format`), whose success is the opaque `encoderOk`. Any
exception in these steps is caught by the top-level handler, which logs and
returns `False`; otherwise the function returns `True`. -/
def download_audio (script : List Nat) (total : Nat)
    (makeDirs dirExists encoderOk : Bool) (fuel : Nat) : Option DownloadRun :=
  match downloadLoop fuel script total ⟨0, CHUNK_SIZE, 0, []⟩ with
  | none => none
  | some st =>
    if makeDirs then
      if encoderOk then some ⟨st, true, true⟩ else some ⟨st, true, false⟩
    else if dirExists then
      if encoderOk then some ⟨st, true, true⟩ else some ⟨st, true, false⟩
    else some ⟨st, true, false⟩

/-! ## Pagination (`get_all_user_playlists`, `get_playlist_songs`,
`get_album_songs`, `get_liked_tracks`, `get_show_episodes`,
`get_artist_albums`). Per-item shaping is abstracted to an opaque item. -/

/-- State of a pagination loop: the `offset` variable, the accumulated items,
and the number of page requests issued. -/
structure PageState where
  offset : Nat
  items : List Nat
  requests : Nat
  deriving DecidableEq, Repr

/-- Models the shared `while True` pagination loop: request the page at
`offset`, advance `offset += limit`, extend the accumulator, and break once a
page holds fewer than `limit` items. The API is an oracle list of pages,
consumed one per request; past its end the API returns empty pages. `fuel`
bounds the modelled iterations and `pages.length + 1` always suffices. -/
def paginateLoop : Nat → List (List Nat) → Nat → PageState → Option PageState
  | 0, _, _, _ => none
  | fuel + 1, pages, limit, st =>
    let page := pages.headD []
    let st' : PageState :=
      ⟨st.offset + limit, st.items ++ page, st.requests + 1⟩
    if page.length < limit then some st'
    else paginateLoop fuel pages.tail limit st'

/-- Models `RespotRequest.get_all_user_playlists` (limit 50). -/
def get_all_user_playlists (pages : List (List Nat)) : Option PageState :=
  paginateLoop (pages.length + 1) pages 50 ⟨0, [], 0⟩

/-- Models `RespotRequest.get_album_songs` (limit 50). -/
def get_album_songs (pages : List (List Nat)) : Option PageState :=
  paginateLoop (pages.length + 1) pages 50 ⟨0, [], 0⟩

/-- Models `RespotRequest.get_liked_tracks` (limit 50, library-scope token). -/
def get_liked_tracks (pages : List (List Nat)) : Option PageState :=
  paginateLoop (pages.length + 1) pages 50 ⟨0, [], 0⟩

/-- Models `RespotRequest.get_show_episodes` (limit 50). -/
def get_show_episodes (pages : List (List Nat)) : Option PageState :=
  paginateLoop (pages.length + 1) pages 50 ⟨0, [], 0⟩

/-- State of the playlist-songs pagination loop, whose items are optional
because entries with `song["track"] is None` are skipped. -/
structure PlaylistPageState where
  offset : Nat
  audios : List Nat
  requests : Nat
  deriving DecidableEq, Repr

/-- Models the `while True` loop of `RespotRequest.get_playlist_songs`: same
pagination protocol, but each page's `None` tracks are filtered out while
accumulating (the break still tests the raw page length). -/
def playlistSongsLoop :
    Nat → List (List (Option Nat)) → Nat → PlaylistPageState →
    Option PlaylistPageState
  | 0, _, _, _ => none
  | fuel + 1, pages, limit, st =>
    let page := pages.headD []
    let st' : PlaylistPageState :=
      ⟨st.offset + limit, st.audios ++ page.filterMap id, st.requests + 1⟩
    if page.length < limit then some st'
    else playlistSongsLoop fuel pages.tail limit st'

/-- Models `RespotRequest.get_playlist_songs` (limit 100). -/
def get_playlist_songs (pages : List (List (Option Nat))) :
    Option PlaylistPageState :=
  playlistSongsLoop (pages.length + 1) pages 100 ⟨0, [], 0⟩

/-- Models `RespotRequest.get_artist_albums`: despite requesting with
`limit = 50` and `offset = 0`, the source has no loop — it issues a single
page request and returns that page's raw items (`resp["items"]`). -/
def get_artist_albums (pages : List (List Nat)) : PageState :=
  ⟨0, pages.headD [], 1⟩

/-! ## Parsed JSON and the metadata-shaping lookups -/

/-- Parsed JSON values, as produced by `json.loads` / `.json()`. -/
inductive Json where
  | null
  | bool (b : Bool)
  | num (n : Int)
  | str (s : String)
  | arr (elems : List Json)
  | obj (fields : List (String × Json))

/-- Dictionary access `j[key]`: raises `KeyError` on a missing key and
`TypeError` on a non-object. -/
def Json.getField : Json → String → Except String Json
  | .obj fields, key =>
    match fields.lookup key with
    | some v => Except.ok v
    | none => Except.error ("KeyError: " ++ key)
  | _, key => Except.error ("TypeError: " ++ key)

/-- List access `j[i]` for a non-negative index. -/
def Json.getIdx : Json → Nat → Except String Json
  | .arr xs, i =>
    match xs.get? i with
    | some v => Except.ok v
    | none => Except.error "IndexError"
  | _, _ => Except.error "TypeError: not a list"

/-- Using a JSON value as a string (string operations raise on other types). -/
def Json.asStr : Json → Except String String
  | .str s => Except.ok s
  | _ => Except.error "TypeError: expected str"

/-- Using a JSON value as a number. -/
def Json.asNum : Json → Except String Int
  | .num n => Except.ok n
  | _ => Except.error "TypeError: expected number"

/-- Using a JSON value as a boolean. -/
def Json.asBool : Json → Except String Bool
  | .bool b => Except.ok b
  | _ => Except.error "TypeError: expected bool"

/-- Using a JSON value as a list. -/
def Json.asArr : Json → Except String (List Json)
  | .arr xs => Except.ok xs
  | _ => Except.error "TypeError: expected list"

/-- Python truthiness of a parsed JSON value (`if not info: ...`). -/
def Json.pyTruthy : Json → Bool
  | .null => false
  | .bool b => b
  | .num n => n != 0
  | .str s => s != ""
  | .arr xs => !xs.isEmpty
  | .obj fields => !fields.isEmpty

/-- Characters removed by `RespotUtils.sanitize_data` (`|` is instead
replaced by `-`); codepoints 39 and 34 are the single and double quote. -/
def SANITIZE_CHARS : List Char :=
  ['\\', '/', ':', '*', '?', Char.ofNat 39, '<', '>', Char.ofNat 34, '|']

/-- Models `RespotUtils.sanitize_data`. The source applies sequential
single-character `str.replace` passes; since no replacement character is
itself in `SANITIZE_CHARS`, one left-to-right pass is equivalent. -/
def sanitize_data (value : String) : String :=
  String.mk (value.data.foldr
    (fun c acc =>
      if c = '|' then '-' :: acc
      else if c ∈ SANITIZE_CHARS then acc
      else c :: acc) [])

/-- Models `RespotUtils.conv_artist_format`: comma-join with a trailing
separator stripped by `formatted[:-2]`. -/
def conv_artist_format (artists : List String) : String :=
  (artists.foldl (fun formatted artist => formatted ++ artist ++ ", ") "").dropRight 2

/-- Maximum of a list of integers (`max(...)` on a non-empty list). -/
def listMax : List Int → Option Int
  | [] => none
  | x :: xs =>
    match listMax xs with
    | none => some x
    | some m => some (max x m)

/-- Models `sum_total.index(max(sum_total)) if sum_total else -1`: the index
of the first occurrence of the maximum, with the `-1` sentinel as `none`. -/
def pyIndexOfMax (xs : List Int) : Option Nat :=
  match listMax xs with
  | none => none
  | some m => xs.indexOf? m

/-- First run of four consecutive digits at the head of the character list,
if any. -/
def fourLeadingDigits : List Char → Option String
  | a :: b :: c :: d :: _ =>
    if a.isDigit && b.isDigit && c.isDigit && d.isDigit then
      some (String.mk [a, b, c, d])
    else none
  | _ => none

/-- Models `re.search` for the pattern of four consecutive digits (the year
group in `get_album_info` / `get_artist_albums`), returning the leftmost
match. -/
def searchFourDigits : List Char → Option String
  | [] => none
  | c :: cs =>
    match fourLeadingDigits (c :: cs) with
    | some y => some y
    | none => searchFourDigits cs

/-- Flat track record produced by `RespotRequest.get_track_info`. -/
structure TrackInfo where
  id : String
  artist_id : String
  artist_name : String
  album_artist : String
  album_name : String
  audio_name : String
  image_url : Option String
  release_year : String
  disc_number : Int
  audio_number : Int
  scraped_song_id : String
  is_playable : Bool
  release_date : String
  deriving DecidableEq, Repr

/-- Models the `try`-block body of `RespotRequest.get_track_info`: shapes the
parsed response into the flat record, raising on missing keys, bad indices or
unexpected types; the accesses follow the source's evaluation order. -/
def shape_track_info (track_id : String) (info : Json) :
    Except String TrackInfo := do
  let tracksJ ← info.getField "tracks"
  let t ← tracksJ.getIdx 0
  let albumJ ← t.getField "album"
  let imagesJ ← albumJ.getField "images"
  let images ← imagesJ.asArr
  let sum_total ← images.mapM (fun sum_px => do
    let h ← (← sum_px.getField "height").asNum
    let w ← (← sum_px.getField "width").asNum
    pure (h + w))
  let img_index := pyIndexOfMax sum_total
  let artistsJ ← t.getField "artists"
  let a0 ← artistsJ.getIdx 0
  let artist_id ← (← a0.getField "id").asStr
  let artistsArr ← artistsJ.asArr
  let artist_name ← artistsArr.mapM (fun data => do
    pure (sanitize_data (← (← data.getField "name").asStr)))
  let albumArtistsJ ← albumJ.getField "artists"
  let aa0 ← albumArtistsJ.getIdx 0
  let album_artist ← (← aa0.getField "name").asStr
  let album_name ← (← albumJ.getField "name").asStr
  let song_name ← (← t.getField "name").asStr
  let image_url ← match img_index with
    | some i => do
        let im ← imagesJ.getIdx i
        let url ← (← im.getField "url").asStr
        pure (some url)
    | none => pure none
  let release_date0 ← (← albumJ.getField "release_date").asStr
  let release_year := (release_date0.splitOn "-").headD ""
  let disc_number ← (← t.getField "disc_number").asNum
  let track_number ← (← t.getField "track_number").asNum
  let scraped_song_id ← (← t.getField "id").asStr
  let is_playable ← (← t.getField "is_playable").asBool
  pure { id := track_id, artist_id := artist_id,
         artist_name := conv_artist_format artist_name,
         album_artist := sanitize_data album_artist,
         album_name := sanitize_data album_name,
         audio_name := sanitize_data song_name,
         image_url := image_url, release_year := release_year,
         disc_number := disc_number, audio_number := track_number,
         scraped_song_id := scraped_song_id, is_playable := is_playable,
         release_date := release_date0 }

/-- Models `RespotRequest.get_track_info`: the shaping body runs under
`try ... except Exception`, which logs the offending id and returns `None`. -/
def get_track_info (track_id : String) (info : Json) : Option TrackInfo :=
  match shape_track_info track_id info with
  | .ok v => some v
  | .error _ => none

/-- Flat artist record produced by `RespotRequest.get_artist_info`. -/
structure ArtistInfo where
  name : String
  genres : String
  deriving DecidableEq, Repr

/-- Models the `try`-block body of `RespotRequest.get_artist_info`. -/
def shape_artist_info (info : Json) : Except String ArtistInfo := do
  let name ← (← info.getField "name").asStr
  let genresArr ← (← info.getField "genres").asArr
  let genres ← genresArr.mapM (fun g => g.asStr)
  pure { name := sanitize_data name, genres := conv_artist_format genres }

/-- Models `RespotRequest.get_artist_info`: the shaping body runs under
`try ... except Exception`, which logs the offending id and falls through,
returning `None`. -/
def get_artist_info (info : Json) : Option ArtistInfo :=
  match shape_artist_info info with
  | .ok v => some v
  | .error _ => none

/-- Flat episode record produced by `RespotRequest.get_episode_info`.
(`disc_number` and `audio_number` are the source's literal `None`s, and
`scraped_episode_id` its literal list `["id"]`.) -/
structure EpisodeInfo where
  id : String
  artist_id : String
  artist_name : String
  show_name : String
  audio_name : String
  image_url : Option String
  release_year : String
  disc_number : Option Int
  audio_number : Option Int
  scraped_episode_id : List String
  is_playable : Bool
  release_date : String
  deriving DecidableEq, Repr

/-- Models `RespotRequest.get_episode_info`: unlike the track and artist
lookups, the shaping has no surrounding `try`, so any exception raised here
propagates to the caller. -/
def get_episode_info (episode_id_str : String) (info : Json) :
    Except String (Option EpisodeInfo) := do
  if !info.pyTruthy then
    return none
  let imagesJ ← info.getField "images"
  let images ← imagesJ.asArr
  let sum_total ← images.mapM (fun sum_px => do
    let h ← (← sum_px.getField "height").asNum
    let w ← (← sum_px.getField "width").asNum
    pure (h + w))
  let img_index := pyIndexOfMax sum_total
  let showJ ← info.getField "show"
  let show_id ← (← showJ.getField "id").asStr
  let show_publisher ← (← showJ.getField "publisher").asStr
  let show_nm ← (← showJ.getField "name").asStr
  let episode_name ← (← info.getField "name").asStr
  let image_url ← match img_index with
    | some i => do
        let im ← imagesJ.getIdx i
        let url ← (← im.getField "url").asStr
        pure (some url)
    | none => pure none
  let release_date0 ← (← info.getField "release_date").asStr
  let release_year := (release_date0.splitOn "-").headD ""
  let is_playable ← (← info.getField "is_playable").asBool
  pure (some
    { id := episode_id_str, artist_id := show_id,
      artist_name := show_publisher, show_name := sanitize_data show_nm,
      audio_name := sanitize_data episode_name, image_url := image_url,
      release_year := release_year, disc_number := none, audio_number := none,
      scraped_episode_id := ["id"], is_playable := is_playable,
      release_date := release_date0 })

/-- Flat album record produced by `RespotRequest.get_album_info`. -/
structure AlbumInfo where
  artists : String
  name : String
  total_tracks : Int
  release_date : String
  deriving DecidableEq, Repr

/-- Models `RespotRequest.get_album_info`: no surrounding `try`, so shaping
exceptions propagate; the 4-digit year search selects which `release_date`
is returned. -/
def get_album_info (info : Json) : Except String AlbumInfo := do
  let artistsArr ← (← info.getField "artists").asArr
  let artists ← artistsArr.mapM (fun a => do
    pure (sanitize_data (← (← a.getField "name").asStr)))
  let release_date0 ← (← info.getField "release_date").asStr
  let name ← (← info.getField "name").asStr
  let total_tracks ← (← info.getField "total_tracks").asNum
  match searchFourDigits release_date0.data with
  | some y =>
    pure { artists := conv_artist_format artists, name := name,
           total_tracks := total_tracks, release_date := y }
  | none =>
    pure { artists := conv_artist_format artists, name := name,
           total_tracks := total_tracks, release_date := release_date0 }

/-- Flat show record produced by `RespotRequest.get_show_info`. -/
structure ShowInfo where
  name : String
  publisher : String
  id : String
  total_episodes : Int
  deriving DecidableEq, Repr

/-- Models `RespotRequest.get_show_info`: no surrounding `try`, so shaping
exceptions propagate. -/
def get_show_info (info : Json) : Except String ShowInfo := do
  let name ← (← info.getField "name").asStr
  let publisher ← (← info.getField "publisher").asStr
  let idStr ← (← info.getField "id").asStr
  let total_episodes ← (← info.getField "total_episodes").asNum
  pure { name := sanitize_data name, publisher := publisher, id := idStr,
         total_episodes := total_episodes }

/-- An episode response missing the required `is_playable` key (all fields
read before it are present). -/
def badEpisodeJson : Json :=
  .obj [("images", .arr []),
        ("show", .obj [("id", .str "s1"), ("publisher", .str "pub"),
                       ("name", .str "shw")]),
        ("name", .str "ep"),
        ("release_date", .str "2020-01-01")]

/-- An album response missing the `release_date` key. -/
def badAlbumJson : Json := .obj [("artists", .arr [])]

/-- A show response missing the `publisher` key. -/
def badShowJson : Json := .obj [("name", .str "x")]

/-! ## Login (`RespotAuth.login`) and quality selection -/

/-- Python exception classes relevant to `RespotAuth`: `RuntimeError` is what
the source's `except` clauses assume the auth layer raises ("Assuming
RuntimeError is raised in init_token() or check_premium()"); anything else
would propagate. -/
inductive PyError where
  | runtimeError (msg : String)
  | otherError (msg : String)
  deriving DecidableEq, Repr

/-- Models `RespotAuth._authenticate_with_stored_credentials`:
`refresh_token()` then `_check_premium()` under `except RuntimeError:
return False`. The two calls' outcomes are oracle parameters. -/
def authenticate_with_stored_credentials
    (refreshOutcome checkPremiumOutcome : Except PyError Unit) :
    Except PyError Bool :=
  match refreshOutcome with
  | .error (.runtimeError _) => .ok false
  | .error e => .error e
  | .ok _ =>
    match checkPremiumOutcome with
    | .error (.runtimeError _) => .ok false
    | .error e => .error e
    | .ok _ => .ok true

/-- Models `RespotAuth._authenticate_with_user_pass`: session creation plus
credential persistence, then `_check_premium()`, under
`except RuntimeError: return False`. -/
def authenticate_with_user_pass
    (createOutcome checkPremiumOutcome : Except PyError Unit) :
    Except PyError Bool :=
  match createOutcome with
  | .error (.runtimeError _) => .ok false
  | .error e => .error e
  | .ok _ =>
    match checkPremiumOutcome with
    | .error (.runtimeError _) => .ok false
    | .error e => .error e
    | .ok _ => .ok true

/-- Python truthiness of the optional `username` / `password` arguments. -/
def pyTruthyStr : Option String → Bool
  | none => false
  | some s => s != ""

/-- Models `RespotAuth.login`: stored credentials take precedence; otherwise
truthy `username and password` trigger interactive authentication; otherwise
`False`. -/
def login (hasStoredCredentials : Bool) (username password : Option String)
    (refreshOutcome checkPremiumOutcome createOutcome
      userPassPremiumOutcome : Except PyError Unit) : Except PyError Bool :=
  if hasStoredCredentials then
    authenticate_with_stored_credentials refreshOutcome checkPremiumOutcome
  else if pyTruthyStr username && pyTruthyStr password then
    authenticate_with_user_pass createOutcome userPassPremiumOutcome
  else
    .ok false

/-- The two `librespot` audio-quality values the source selects between. -/
inductive AudioQuality where
  | HIGH
  | VERY_HIGH
  deriving DecidableEq, Repr

/-- Models `RespotAuth._check_premium`: raises `RuntimeError` without a
session; otherwise selects `VERY_HIGH` exactly when the account attribute
`type` is `premium` or the local `force_premium` override is set, else
`HIGH`; the selection is stored once in `self.quality`. -/
def check_premium (sessionPresent : Bool) (userType : Option String)
    (force_premium : Bool) : Except PyError AudioQuality :=
  if !sessionPresent then .error (.runtimeError "You must login first")
  else if userType == some "premium" || force_premium then .ok .VERY_HIGH
  else .ok .HIGH

/-- Models the bitrate selection in
`RespotTrackHandler._convert_audio_format`: default 160k, 320k for
`VERY_HIGH`. -/
def convert_bitrate (quality : AudioQuality) : String :=
  if quality == .VERY_HIGH then "320k" else "160k"

end Respot

namespace Respot

/-- Helper: on an all-failing oracle long enough to exhaust the retry budget,
`authorized_get_request` raises `TooManyRetries` after issuing exactly
`4 - rc` requests (one per retry count `rc, ..., 3`). -/
theorem agr_all_fail (oracle : List HttpResult) :
    ∀ (rc : Nat) (tb : Option Token) (st : ReqState),
    (∀ o ∈ oracle, isFailing o = true) → 3 < rc + oracle.length →
    (authorized_get_request oracle tb rc st).2 = .tooManyRetries ∧
    (authorized_get_request oracle tb rc st).1.length = 4 - rc := by
  induction oracle with
  | nil =>
    intro rc tb st _ hlen
    simp only [List.length_nil, Nat.add_zero] at hlen
    simp [authorized_get_request, hlen]
    omega
  | cons o rest ih =>
    intro rc tb st hfail hlen
    by_cases hrc : rc > 3
    · cases o <;> simp [authorized_get_request, hrc] <;> omega
    · have hrest : ∀ x ∈ rest, isFailing x = true := by
        intro x hx; exact hfail x (List.mem_cons_of_mem _ hx)
      have hlen' : 3 < (rc + 1) + rest.length := by
        simp only [List.length_cons] at hlen; omega
      cases o with
      | connFail =>
        have h := ih (rc + 1) (some (tb.getD st.token)) st hrest hlen'
        simp only [authorized_get_request, if_neg hrc]
        refine ⟨h.1, ?_⟩
        simp only [List.length_cons, h.2]
        omega
      | resp status =>
        have h401 : status = 401 := by
          have := hfail (.resp status) (List.mem_cons_self _ _)
          simpa [isFailing] using this
        subst h401
        have h := ih (rc + 1) (some (tb.getD st.token))
          (refresh_token st).2 hrest hlen'
        have h2 := h.2
        constructor
        · simp [authorized_get_request, hrc, h.1]
        · simp only [authorized_get_request, if_neg hrc]
          simp only [if_pos trivial, List.length_cons]
          rw [h2]
          omega

/-- Helper: fewer than `4 - rc` recoverable failures followed by a non-401
response make `authorized_get_request` return that response, after issuing one
request per failure plus one for the success. -/
theorem agr_prefix_fail (fails : List HttpResult) :
    ∀ (rc : Nat) (tb : Option Token) (st : ReqState) (status : Nat)
      (rest : List HttpResult),
    (∀ o ∈ fails, isFailing o = true) → rc + fails.length ≤ 3 → status ≠ 401 →
    ∃ st',
      (authorized_get_request (fails ++ .resp status :: rest) tb rc st).2
        = .success status st' ∧
      (authorized_get_request (fails ++ .resp status :: rest) tb rc st).1.length
        = fails.length + 1 := by
  induction fails with
  | nil =>
    intro rc tb st status rest _ hlen h401
    have hrc : ¬ rc > 3 := by omega
    refine ⟨st, ?_⟩
    simp [authorized_get_request, hrc, h401]
  | cons o fs ih =>
    intro rc tb st status rest hfail hlen h401
    have hrc : ¬ rc > 3 := by
      simp only [List.length_cons] at hlen; omega
    have hfs : ∀ x ∈ fs, isFailing x = true := by
      intro x hx; exact hfail x (List.mem_cons_of_mem _ hx)
    have hlen' : (rc + 1) + fs.length ≤ 3 := by
      simp only [List.length_cons] at hlen; omega
    cases o with
    | connFail =>
      obtain ⟨st', h1, h2⟩ :=
        ih (rc + 1) (some (tb.getD st.token)) st status rest hfs hlen' h401
      refine ⟨st', ?_, ?_⟩
      · simpa [authorized_get_request, hrc] using h1
      · simp only [List.cons_append, authorized_get_request, if_neg hrc,
          List.length_cons]
        simp [List.append_eq, h2]
    | resp s =>
      have h401' : s = 401 := by
        have := hfail (.resp s) (List.mem_cons_self _ _)
        simpa [isFailing] using this
      subst h401'
      obtain ⟨st', h1, h2⟩ :=
        ih (rc + 1) (some (tb.getD st.token)) (refresh_token st).2
          status rest hfs hlen' h401
      refine ⟨st', ?_, ?_⟩
      · simpa [authorized_get_request, hrc] using h1
      · simp only [List.cons_append, authorized_get_request, if_neg hrc,
          List.length_cons]
        simp [List.append_eq, h2]

/-- C1: on HTTP 401 the source refreshes and stores the newly minted tokens,
but the retried request is issued with the *rejected* bearer token, not the
new one. Evaluated at the failing input: initial tokens `(0, 1)`, server
answers 401 then 200. The trace records token `0` on both requests, while the
fresh tokens `(2, 3)` were minted and stored (final state `⟨2, 3, 4⟩`). The
claim requires the second request to carry the newly minted token `2`. -/
theorem c1_retry_reuses_rejected_token :
    authorized_get_request [.resp 401, .resp 200] none 0 ⟨0, 1, 2⟩
      = ([0, 0], .success 200 ⟨2, 3, 4⟩) ∧ (0 : Token) ≠ 2 := by
  constructor
  · rfl
  · decide

/-- C2: for every all-failing (401 / connection error) outcome sequence,
`authorized_get_request` issues exactly 4 attempts and raises
`TooManyRetries`; fewer than 4 failures followed by a non-401 response return
that response, using one request per failure plus the successful one. -/
theorem c2_retry_bound :
    (∀ (oracle : List HttpResult) (tb : Option Token) (st : ReqState),
      (∀ o ∈ oracle, isFailing o = true) → 4 ≤ oracle.length →
      (authorized_get_request oracle tb 0 st).2 = .tooManyRetries ∧
      (authorized_get_request oracle tb 0 st).1.length = 4) ∧
    (∀ (fails : List HttpResult) (tb : Option Token) (st : ReqState)
       (status : Nat) (rest : List HttpResult),
      (∀ o ∈ fails, isFailing o = true) → fails.length < 4 → status ≠ 401 →
      ∃ st',
        (authorized_get_request (fails ++ .resp status :: rest) tb 0 st).2
          = .success status st' ∧
        (authorized_get_request (fails ++ .resp status :: rest) tb 0 st).1.length
          = fails.length + 1) := by
  constructor
  · intro oracle tb st hfail hlen
    have := agr_all_fail oracle 0 tb st hfail (by omega)
    simpa using this
  · intro fails tb st status rest hfail hlen h401
    exact agr_prefix_fail fails 0 tb st status rest hfail (by omega) h401

/-- Witness for C2 at concrete inputs: four failures raise `TooManyRetries`
with 4 issued requests; two failures then a 200 return the 200 on the third
request. -/
theorem c2_retry_bound_witness :
    ((∀ o ∈ [HttpResult.resp 401, .connFail, .resp 401, .connFail],
        isFailing o = true) ∧
      4 ≤ [HttpResult.resp 401, .connFail, .resp 401, .connFail].length ∧
      (authorized_get_request [.resp 401, .connFail, .resp 401, .connFail]
          none 0 ⟨0, 1, 2⟩).2 = .tooManyRetries ∧
      (authorized_get_request [.resp 401, .connFail, .resp 401, .connFail]
          none 0 ⟨0, 1, 2⟩).1.length = 4) ∧
    ∃ st',
      (authorized_get_request ([.resp 401, .connFail] ++ .resp 200 :: [])
          none 0 ⟨0, 1, 2⟩).2 = .success 200 st' ∧
      (authorized_get_request ([.resp 401, .connFail] ++ .resp 200 :: [])
          none 0 ⟨0, 1, 2⟩).1.length = [HttpResult.resp 401, .connFail].length + 1 := by
  constructor
  · refine ⟨by decide, by decide, ?_⟩
    exact c2_retry_bound.1 [.resp 401, .connFail, .resp 401, .connFail]
      none ⟨0, 1, 2⟩ (by decide) (by decide)
  · exact c2_retry_bound.2 [.resp 401, .connFail] none ⟨0, 1, 2⟩ 200 []
      (by decide) (by decide) (by decide)

end Respot

namespace Respot

/-- Helper: `stepRead` on a drained source (0 bytes available) keeps
`downloaded`, appends a `(chunk_size, 0)` read, and bumps `failCount`. -/
theorem stepRead_zero (total : Nat) (st : DLState) :
    stepRead total 0 st =
      { downloaded := st.downloaded,
        chunkSize :=
          if total - st.downloaded < st.chunkSize then total - st.downloaded
          else st.chunkSize,
        failCount := st.failCount + 1,
        reads := st.reads ++ [(st.chunkSize, 0)] } := by
  simp [stepRead, Nat.zero_min]

/-- Helper: from a state still inside the loop with `k + 1` empty-read
increments left before the bound, a source that only yields empty reads makes
the loop perform exactly `k + 1` further zero-byte reads and then break, with
`downloaded` unchanged. -/
theorem downloadLoop_zero_reads (k : Nat) :
    ∀ (st : DLState) (total : Nat) (script : List Nat) (fuel : Nat),
    (∀ x ∈ script, x = 0) → st.downloaded ≤ total →
    st.failCount + (k + 1) = RETRY_DOWNLOAD + 1 → k + 1 ≤ fuel →
    ∃ c zs, downloadLoop fuel script total st
        = some ⟨st.downloaded, c, RETRY_DOWNLOAD + 1, st.reads ++ zs⟩ ∧
      zs.length = k + 1 ∧ ∀ p ∈ zs, (p : Nat × Nat).2 = 0 := by
  induction k with
  | zero =>
    intro st total script fuel hz hd hf hfuel
    obtain ⟨f, rfl⟩ : ∃ f, fuel = f + 1 := ⟨fuel - 1, by omega⟩
    have hhead : script.headD 0 = 0 := by
      cases script with
      | nil => rfl
      | cons a as => exact hz a (List.mem_cons_self _ _)
    have hfc : st.failCount = RETRY_DOWNLOAD := by omega
    refine ⟨if total - st.downloaded < st.chunkSize then total - st.downloaded
        else st.chunkSize, [(st.chunkSize, 0)], ?_, by simp, by simp⟩
    simp only [downloadLoop, if_pos hd, hhead, stepRead_zero]
    rw [if_pos (by omega : RETRY_DOWNLOAD < st.failCount + 1)]
    rw [hfc]
  | succ k ih =>
    intro st total script fuel hz hd hf hfuel
    obtain ⟨f, rfl⟩ : ∃ f, fuel = f + 1 := ⟨fuel - 1, by omega⟩
    have hhead : script.headD 0 = 0 := by
      cases script with
      | nil => rfl
      | cons a as => exact hz a (List.mem_cons_self _ _)
    have hztail : ∀ x ∈ script.tail, x = 0 := by
      intro x hx; exact hz x (List.mem_of_mem_tail hx)
    obtain ⟨c, zs, heq, hlen, hzs⟩ :=
      ih (stepRead total 0 st) total script.tail f hztail
        (by rw [stepRead_zero]; exact hd)
        (by rw [stepRead_zero]; simp only []; omega)
        (by omega)
    refine ⟨c, (st.chunkSize, 0) :: zs, ?_, by simp [hlen], ?_⟩
    · simp only [downloadLoop, if_pos hd, hhead]
      rw [if_neg (by rw [stepRead_zero]; simp only []; omega)]
      rw [heq, stepRead_zero]
      simp [List.append_assoc]
    · intro p hp
      rcases List.mem_cons.mp hp with h | h
      · rw [h]
      · exact hzs p h

/-- C7: with `downloaded` having reached `total` with a zero empty-read count
and the stream drained, the loop does not exit at `downloaded = total`: it
performs exactly `RETRY_DOWNLOAD + 1 = 31` further zero-byte reads before
breaking with `downloaded` still equal to `total`; the empty-read counter is
cumulative — `stepRead` never decreases it, so a successful read never resets
it; and whenever `download_audio` completes its loop, the terminal progress
signal is emitted. -/
theorem c7_loop_past_total :
    (∀ (st : DLState) (total fuel : Nat),
      st.downloaded = total → st.failCount = 0 → RETRY_DOWNLOAD + 1 ≤ fuel →
      ∃ c zs, downloadLoop fuel [] total st
          = some ⟨total, c, RETRY_DOWNLOAD + 1, st.reads ++ zs⟩ ∧
        zs.length = RETRY_DOWNLOAD + 1 ∧ ∀ p ∈ zs, (p : Nat × Nat).2 = 0) ∧
    (∀ (total avail : Nat) (st : DLState),
      st.failCount ≤ (stepRead total avail st).failCount) ∧
    (∀ (script : List Nat) (total : Nat) (makeDirs dirExists encoderOk : Bool)
       (fuel : Nat),
      ((download_audio script total makeDirs dirExists encoderOk fuel).map
          (fun run => run.terminalSignal)).getD true = true) := by
  refine ⟨?_, ?_, ?_⟩
  · intro st total fuel hd hf hfuel
    obtain ⟨c, zs, heq, hlen, hzs⟩ :=
      downloadLoop_zero_reads RETRY_DOWNLOAD st total [] fuel (by simp)
        (le_of_eq hd) (by omega) hfuel
    exact ⟨c, zs, by rw [heq, hd], hlen, hzs⟩
  · intro total avail st
    simp only [stepRead]
    split <;> omega
  · intro script total makeDirs dirExists encoderOk fuel
    cases h : downloadLoop fuel script total ⟨0, CHUNK_SIZE, 0, []⟩ <;>
      cases makeDirs <;> cases dirExists <;> cases encoderOk <;>
        simp [download_audio, h]

/-- Witness for C7 at a concrete input: a state that has downloaded all of
`total = 120000` bytes with no prior empty reads, stream drained. -/
theorem c7_loop_past_total_witness :
    ((⟨120000, 0, 0, []⟩ : DLState).downloaded = 120000 ∧
      (⟨120000, 0, 0, []⟩ : DLState).failCount = 0 ∧ RETRY_DOWNLOAD + 1 ≤ 31) ∧
    ∃ c zs, downloadLoop 31 [] 120000 ⟨120000, 0, 0, []⟩
        = some ⟨120000, c, RETRY_DOWNLOAD + 1, ([] : List (Nat × Nat)) ++ zs⟩ ∧
      zs.length = RETRY_DOWNLOAD + 1 ∧ ∀ p ∈ zs, (p : Nat × Nat).2 = 0 :=
  ⟨⟨rfl, rfl, by decide⟩,
    c7_loop_past_total.1 ⟨120000, 0, 0, []⟩ 120000 31 rfl rfl (by decide)⟩

/-- C3 counterexample: on a stream yielding 31 consecutive empty reads before
any data (the claim's failing scenario), `download_audio` abandons the loop
but then converts the partial buffer and returns `True` when the encoder
accepts it — it does not return failure as the claim states. -/
theorem c3_counterexample :
    (download_audio (List.replicate 31 0) 1000 true true true 40).map
        (fun run => run.result) = some true := by
  decide

/-- C3 amended: a zero-byte read increments the (cumulative, never reset)
empty-read counter, and once it exceeds `RETRY_DOWNLOAD = 30` — after 31
empty reads — the loop is abandoned without hanging; but `download_audio`
then proceeds to the directory and conversion steps, returning `True` exactly
when the encoder accepts the partial buffer, and `False` only when some later
step raises. -/
theorem c3_amended_abandons_without_failure :
    ∀ (total : Nat) (encoderOk : Bool),
    ∃ st, download_audio (List.replicate 31 0) total true true encoderOk 40
        = some ⟨st, true, encoderOk⟩ ∧
      st.failCount = RETRY_DOWNLOAD + 1 ∧ st.reads.length = 31 ∧
      st.downloaded = 0 ∧ ∀ p ∈ st.reads, (p : Nat × Nat).2 = 0 := by
  intro total encoderOk
  obtain ⟨c, zs, heq, hlen, hzs⟩ :=
    downloadLoop_zero_reads RETRY_DOWNLOAD ⟨0, CHUNK_SIZE, 0, []⟩ total
      (List.replicate 31 0) 40 (by simp)
      (Nat.zero_le total) (by simp) (by decide)
  simp only [List.nil_append] at heq
  refine ⟨⟨0, c, RETRY_DOWNLOAD + 1, zs⟩, ?_, rfl, ?_, rfl, hzs⟩
  · cases encoderOk <;>
      (simp only [download_audio]; rw [heq]; simp)
  · rw [hlen]
    simp [RETRY_DOWNLOAD]

/-- C5 counterexample: with `total = 120000` and chunk size 50000 on a stream
delivering all bytes, the loop does not issue just the reads
`50000, 50000, 20000` — the shrunk 20000-byte read is not the final one. -/
theorem c5_counterexample :
    (downloadLoop 40 [50000, 50000, 20000] 120000 ⟨0, CHUNK_SIZE, 0, []⟩).map
        (fun st => st.reads.map Prod.fst)
      ≠ some [50000, 50000, 20000] := by
  decide

/-- C5 amended: with `total = 120000` and chunk size 50000 the loop issues
reads of 50000, 50000, then a read shrunk to 20000 so it does not overshoot
`total`, and `downloaded` exactly equals `total`; but because the loop
continues while `downloaded <= total`, these are followed by 31 zero-byte
reads of the drained stream before the empty-read bound breaks the loop. -/
theorem c5_amended_chunk_accounting :
    downloadLoop 40 [50000, 50000, 20000] 120000 ⟨0, CHUNK_SIZE, 0, []⟩
      = some ⟨120000, 0, RETRY_DOWNLOAD + 1,
          [(50000, 50000), (50000, 50000), (20000, 20000)]
            ++ List.replicate 31 (0, 0)⟩ := by
  decide

/-- C9: resolving the destination directory. With `make_dirs` unset and the
directory missing, `download_audio` raises `FileNotFoundError`, which the
top-level handler turns into a boolean `False` for this entity alone — the
terminal progress signal was already emitted and the encoder is never
consulted. With `make_dirs` set the directory is created and the outcome is
the encoder's, regardless of whether the directory already existed. -/
theorem c9_missing_directory :
    (∀ (script : List Nat) (total : Nat) (encoderOk : Bool) (fuel : Nat),
      download_audio script total false false encoderOk fuel
        = (downloadLoop fuel script total ⟨0, CHUNK_SIZE, 0, []⟩).map
            (fun st => ⟨st, true, false⟩)) ∧
    (∀ (script : List Nat) (total : Nat) (dirExists encoderOk : Bool)
       (fuel : Nat),
      download_audio script total true dirExists encoderOk fuel
        = (downloadLoop fuel script total ⟨0, CHUNK_SIZE, 0, []⟩).map
            (fun st => ⟨st, true, encoderOk⟩)) := by
  constructor
  · intro script total encoderOk fuel
    cases h : downloadLoop fuel script total ⟨0, CHUNK_SIZE, 0, []⟩ <;>
      simp [download_audio, h]
  · intro script total dirExists encoderOk fuel
    cases h : downloadLoop fuel script total ⟨0, CHUNK_SIZE, 0, []⟩ <;>
      cases encoderOk <;> simp [download_audio, h]

end Respot

namespace Respot

/-- Helper: one pagination request on a full page advances the state and
continues the loop. -/
theorem paginateLoop_cons_ge (fuel limit : Nat) (page : List Nat)
    (pages : List (List Nat)) (st : PageState) (h : ¬ page.length < limit) :
    paginateLoop (fuel + 1) (page :: pages) limit st
      = paginateLoop fuel pages limit
          ⟨st.offset + limit, st.items ++ page, st.requests + 1⟩ := by
  simp [paginateLoop, h]

/-- Helper: one pagination request on a short page stops the loop. -/
theorem paginateLoop_cons_lt (fuel limit : Nat) (page : List Nat)
    (pages : List (List Nat)) (st : PageState) (h : page.length < limit) :
    paginateLoop (fuel + 1) (page :: pages) limit st
      = some ⟨st.offset + limit, st.items ++ page, st.requests + 1⟩ := by
  simp [paginateLoop, h]

/-- Helper: one playlist pagination request on a full page. -/
theorem playlistSongsLoop_cons_ge (fuel limit : Nat)
    (page : List (Option Nat)) (pages : List (List (Option Nat)))
    (st : PlaylistPageState) (h : ¬ page.length < limit) :
    playlistSongsLoop (fuel + 1) (page :: pages) limit st
      = playlistSongsLoop fuel pages limit
          ⟨st.offset + limit, st.audios ++ page.filterMap id, st.requests + 1⟩ := by
  simp [playlistSongsLoop, h]

/-- Helper: one playlist pagination request on a short page. -/
theorem playlistSongsLoop_cons_lt (fuel limit : Nat)
    (page : List (Option Nat)) (pages : List (List (Option Nat)))
    (st : PlaylistPageState) (h : page.length < limit) :
    playlistSongsLoop (fuel + 1) (page :: pages) limit st
      = some ⟨st.offset + limit, st.audios ++ page.filterMap id, st.requests + 1⟩ := by
  simp [playlistSongsLoop, h]

/-- Helper: filtering out `none` from a list of all-`some` entries keeps its
length. -/
theorem length_filterMap_id_of_isSome (l : List (Option Nat))
    (h : ∀ x ∈ l, x.isSome = true) : (l.filterMap id).length = l.length := by
  induction l with
  | nil => rfl
  | cons a as ih =>
    have ha := h a (List.mem_cons_self _ _)
    cases a with
    | none => simp at ha
    | some v =>
      simp only [List.filterMap_cons, id, List.length_cons]
      simp [ih (fun x hx => h x (List.mem_cons_of_mem _ hx))]

/-- C4 amended: the looping paginated listings (user playlists, playlist
tracks, album tracks, saved tracks, show episodes — all instances of
`paginateLoop` / `playlistSongsLoop`) fetch a page of size `limit` at
`offset`, accumulate, advance `offset += limit`, and stop exactly on the
first short page: on pages of sizes `[limit, limit, limit, k < limit]` they
return `3 * limit + k` items in exactly 4 requests (for playlist tracks,
provided no entry has a `None` track). `get_artist_albums` is the exception:
it issues a single request and returns only the first page. -/
theorem c4_pagination_protocol :
    (∀ (limit k fuel : Nat) (p1 p2 p3 p4 : List Nat) (rest : List (List Nat)),
      p1.length = limit → p2.length = limit → p3.length = limit →
      p4.length = k → k < limit → 4 ≤ fuel →
      ∃ st, paginateLoop fuel (p1 :: p2 :: p3 :: p4 :: rest) limit ⟨0, [], 0⟩
          = some st ∧
        st.items.length = 3 * limit + k ∧ st.requests = 4 ∧
        st.offset = 4 * limit) ∧
    (∀ (limit k fuel : Nat) (p1 p2 p3 p4 : List (Option Nat))
       (rest : List (List (Option Nat))),
      (∀ x ∈ p1, x.isSome = true) → (∀ x ∈ p2, x.isSome = true) →
      (∀ x ∈ p3, x.isSome = true) → (∀ x ∈ p4, x.isSome = true) →
      p1.length = limit → p2.length = limit → p3.length = limit →
      p4.length = k → k < limit → 4 ≤ fuel →
      ∃ st, playlistSongsLoop fuel (p1 :: p2 :: p3 :: p4 :: rest) limit
          ⟨0, [], 0⟩ = some st ∧
        st.audios.length = 3 * limit + k ∧ st.requests = 4 ∧
        st.offset = 4 * limit) := by
  constructor
  · intro limit k fuel p1 p2 p3 p4 rest h1 h2 h3 h4 hk hfuel
    obtain ⟨f, rfl⟩ : ∃ f, fuel = f + 1 + 1 + 1 + 1 := ⟨fuel - 4, by omega⟩
    rw [paginateLoop_cons_ge _ _ _ _ _ (by omega),
        paginateLoop_cons_ge _ _ _ _ _ (by omega),
        paginateLoop_cons_ge _ _ _ _ _ (by omega),
        paginateLoop_cons_lt _ _ _ _ _ (by omega)]
    refine ⟨_, rfl, ?_, rfl, ?_⟩
    · dsimp only
      simp only [List.nil_append, List.length_append, h1, h2, h3, h4]
      omega
    · dsimp only
      omega
  · intro limit k fuel p1 p2 p3 p4 rest hs1 hs2 hs3 hs4 h1 h2 h3 h4 hk hfuel
    obtain ⟨f, rfl⟩ : ∃ f, fuel = f + 1 + 1 + 1 + 1 := ⟨fuel - 4, by omega⟩
    rw [playlistSongsLoop_cons_ge _ _ _ _ _ (by omega),
        playlistSongsLoop_cons_ge _ _ _ _ _ (by omega),
        playlistSongsLoop_cons_ge _ _ _ _ _ (by omega),
        playlistSongsLoop_cons_lt _ _ _ _ _ (by omega)]
    refine ⟨_, rfl, ?_, rfl, ?_⟩
    · dsimp only
      simp only [List.nil_append, List.length_append,
        length_filterMap_id_of_isSome p1 hs1,
        length_filterMap_id_of_isSome p2 hs2,
        length_filterMap_id_of_isSome p3 hs3,
        length_filterMap_id_of_isSome p4 hs4, h1, h2, h3, h4]
      omega
    · dsimp only
      omega

/-- Witness for C4 at concrete inputs: `limit = 2` and pages of sizes
`[2, 2, 2, 1]` for both loop shapes. -/
theorem c4_pagination_protocol_witness :
    (∃ st, paginateLoop 4 [[1, 2], [3, 4], [5, 6], [7]] 2 ⟨0, [], 0⟩
        = some st ∧
      st.items.length = 3 * 2 + 1 ∧ st.requests = 4 ∧ st.offset = 4 * 2) ∧
    (∃ st, playlistSongsLoop 4
        [[some 1, some 2], [some 3, some 4], [some 5, some 6], [some 7]] 2
        ⟨0, [], 0⟩ = some st ∧
      st.audios.length = 3 * 2 + 1 ∧ st.requests = 4 ∧ st.offset = 4 * 2) :=
  ⟨c4_pagination_protocol.1 2 1 4 [1, 2] [3, 4] [5, 6] [7] []
      rfl rfl rfl rfl (by decide) (by decide),
    c4_pagination_protocol.2 2 1 4 [some 1, some 2] [some 3, some 4]
      [some 5, some 6] [some 7] [] (by decide) (by decide) (by decide)
      (by decide) rfl rfl rfl rfl (by decide) (by decide)⟩

/-- C4 counterexample: `get_artist_albums` does not follow the pagination
protocol. On pages of sizes `[50, 50, 50, 3]` (its request uses `limit = 50`),
the claim requires `3 * 50 + 3 = 153` accumulated items over 4 requests; the
source issues a single request and returns the 50 items of the first page. -/
theorem c4_artist_albums_counterexample :
    (get_artist_albums [List.replicate 50 1, List.replicate 50 2,
        List.replicate 50 3, List.replicate 3 4]).requests = 1 ∧
    (get_artist_albums [List.replicate 50 1, List.replicate 50 2,
        List.replicate 50 3, List.replicate 3 4]).items.length = 50 ∧
    ¬ ((get_artist_albums [List.replicate 50 1, List.replicate 50 2,
          List.replicate 50 3, List.replicate 3 4]).requests = 4 ∧
       (get_artist_albums [List.replicate 50 1, List.replicate 50 2,
          List.replicate 50 3, List.replicate 3 4]).items.length
         = 3 * 50 + 3) := by
  refine ⟨rfl, by decide, ?_⟩
  intro h
  exact absurd h.1 (by decide)

/-- C6 counterexample: an exception raised while shaping an episode's
metadata is not caught — `get_episode_info` propagates the `KeyError` for the
missing `is_playable` field instead of returning a not-found result. -/
theorem c6_episode_propagates :
    get_episode_info "E1" badEpisodeJson
      = .error "KeyError: is_playable" := by
  rfl

/-- C6 amended: only the track and artist lookups wrap their shaping in
`try ... except Exception` (logging the offending id and returning a
not-found `None`); the episode, album and show lookups have no handler, so
shaping exceptions propagate to the caller. -/
theorem c6_amended_catch_scope :
    (∀ (track_id : String) (info : Json) (e : String),
      shape_track_info track_id info = .error e →
      get_track_info track_id info = none) ∧
    (∀ (info : Json) (e : String),
      shape_artist_info info = .error e → get_artist_info info = none) ∧
    get_episode_info "E1" badEpisodeJson = .error "KeyError: is_playable" ∧
    get_album_info badAlbumJson = .error "KeyError: release_date" ∧
    get_show_info badShowJson = .error "KeyError: publisher" := by
  refine ⟨?_, ?_, rfl, rfl, rfl⟩
  · intro track_id info e h
    simp [get_track_info, h]
  · intro info e h
    simp [get_artist_info, h]

/-- Witness for C6 at concrete inputs: a track response whose `tracks` array
is empty (shaping raises `IndexError`) and an artist response missing `name`
(shaping raises `KeyError`); both lookups return `none`. -/
theorem c6_amended_catch_scope_witness :
    get_track_info "T1" (Json.obj [("tracks", Json.arr [])]) = none ∧
    get_artist_info (Json.obj []) = none :=
  ⟨c6_amended_catch_scope.1 "T1" (Json.obj [("tracks", Json.arr [])])
      "IndexError" (by rfl),
    c6_amended_catch_scope.2.1 (Json.obj []) "KeyError: name" (by rfl)⟩

/-- C8: with stored credentials, `login()` (no username/password needed)
silently reauthenticates: it succeeds when the auth layer succeeds, and any
authentication-layer failure — a `RuntimeError` from `refresh_token` or
`_check_premium`, which is the failure class the source's `except` clauses
assume the auth layer raises — yields boolean `False` rather than an
exception. With no stored credentials and no username/password, `login`
returns `False` for every oracle outcome. -/
theorem c8_login_failure_boolean :
    (∀ (u p : Option String) (a b : Except PyError Unit),
      login true u p (.ok ()) (.ok ()) a b = .ok true) ∧
    (∀ (m : String) (cp : Except PyError Unit) (u p : Option String)
       (a b : Except PyError Unit),
      login true u p (.error (.runtimeError m)) cp a b = .ok false) ∧
    (∀ (m : String) (u p : Option String) (a b : Except PyError Unit),
      login true u p (.ok ()) (.error (.runtimeError m)) a b = .ok false) ∧
    (∀ (r c a b : Except PyError Unit),
      login false none none r c a b = .ok false) := by
  refine ⟨?_, ?_, ?_, ?_⟩ <;> intros <;> rfl

/-- C10: with a live session, `_check_premium` selects `VERY_HIGH` (the
spec's High tier) exactly when the account attribute is `premium` or the
local `force_premium` override is set, and `HIGH` (Standard) otherwise; the
encoder bitrate is 320k for `VERY_HIGH` and 160k for `HIGH`. -/
theorem c10_quality_tier_bitrate :
    (∀ (userType : Option String) (force_premium : Bool),
      (check_premium true userType force_premium = .ok .VERY_HIGH ↔
        (userType = some "premium" ∨ force_premium = true)) ∧
      (check_premium true userType force_premium = .ok .HIGH ↔
        ¬(userType = some "premium" ∨ force_premium = true))) ∧
    convert_bitrate .VERY_HIGH = "320k" ∧ convert_bitrate .HIGH = "160k" := by
  refine ⟨?_, rfl, rfl⟩
  intro userType force_premium
  by_cases hd : userType = some "premium" ∨ force_premium = true
  · have hq : (userType == some "premium" || force_premium) = true := by
      rcases hd with h | h
      · simp [h]
      · simp [h]
    refine ⟨⟨fun _ => hd, fun _ => ?_⟩, ⟨fun h => ?_, fun hn => absurd hd hn⟩⟩
    · simp [check_premium, hq]
    · simp [check_premium, hq] at h
  · push_neg at hd
    have hf : force_premium = false := by
      cases force_premium
      · rfl
      · exact absurd rfl hd.2
    have hq : (userType == some "premium" || force_premium) = false := by
      simp [hf, beq_eq_false_iff_ne, hd.1]
    refine ⟨⟨fun h => ?_, fun h => absurd h (by push_neg; exact hd)⟩,
      ⟨fun _ => by push_neg; exact hd, fun _ => ?_⟩⟩
    · simp [check_premium, hq] at h
    · simp [check_premium, hq]

end Respot
